import Mathlib

/-!
Shallow embedding of `src/src/keyring/service.ts` (class `KeyRingService`)
from the `cupiee-background` repository.

External collaborators (`ChainsService`, `InteractionService`, the `KeyRing`
object from `./keyring`, the `@owallet/cosmos` helpers, RPC transport) are
modelled as oracle fields of explicit environment structures: each field
records the value such a call would return (or the error it would throw).
The methods of `KeyRingService` themselves are translated statement by
statement; event dispatches (`interactionService.dispatchEvent`) are
accumulated in an explicit event list, and `waitApprove` invocations are
recorded by a boolean / by the payload handed to the approval step.
-/

deriving instance DecidableEq for Except

namespace KeyRingSvc

/-- JS exceptions thrown by the service: `OWalletError(module, code, msg)`
or a plain `new Error(msg)`. -/
inductive JsError where
  | owallet (module : String) (code : Nat) (msg : String)
  | error (msg : String)
deriving DecidableEq, Repr

/-- Ports used by `dispatchEvent` (`APP_PORT`, `WEBPAGE_PORT` from
`@owallet/router`). -/
inductive Port where
  | APP_PORT
  | WEBPAGE_PORT
deriving DecidableEq, Repr

/-- One `interactionService.dispatchEvent(port, name, data)` call. -/
structure Event where
  port : Port
  name : String
deriving DecidableEq, Repr

/-- The `request-sign-end` completion event (APP_PORT). -/
def evRequestSignEnd : Event := ⟨Port.APP_PORT, "request-sign-end"⟩

/-- The `request-sign-ethereum-end` completion event (APP_PORT). -/
def evRequestSignEthereumEnd : Event := ⟨Port.APP_PORT, "request-sign-ethereum-end"⟩

/-- The `keystore-changed` event (WEBPAGE_PORT). -/
def evKeystoreChanged : Event := ⟨Port.WEBPAGE_PORT, "keystore-changed"⟩

/-- `KeyRingStatus` from `./keyring` (used by `enable`). -/
inductive KeyRingStatus where
  | NOTLOADED
  | EMPTY
  | LOCKED
  | UNLOCKED
deriving DecidableEq, Repr

/-- One message of an Amino `StdSignDoc` (`msgs[i]`): its `type` tag, the
optional `value.signer` field and the remaining value payload, abstracted
as a string. -/
structure AminoMsg where
  type : String
  signer : Option String
  data : String
deriving DecidableEq, Repr

/-- Amino `StdSignDoc` as far as the service inspects it: the message list
(the service reads `msgs[0].value.signer`) plus the rest of the document
abstracted as `memo`. -/
structure StdSignDoc where
  msgs : List AminoMsg
  memo : String
deriving DecidableEq, Repr

/-- `signDoc.msgs[0].value.signer` — `none` when the first message is
absent or carries no signer field. -/
def firstMsgSigner (doc : StdSignDoc) : Option String :=
  doc.msgs.head?.bind (fun m => m.signer)

/-- Result of `encodeSecp256k1Signature(pubKey, signature)` (external
`@cosmjs` helper): pairs the public key with the raw signature bytes. -/
structure EncodedSignature where
  pubKey : List Nat
  sigBytes : List Nat
deriving DecidableEq, Repr

/-- `AminoSignResponse`: the signed doc plus the encoded signature. -/
structure AminoSignResponse where
  signed : StdSignDoc
  signature : EncodedSignature
deriving DecidableEq, Repr

/-- Environment of collaborator results for `requestSignAmino`:
`coinType` from `chainsService.getChainCoinType`, `keyAddress`/`keyPubKey`
from `keyRing.getKey`, `bech32Pfx` from `getChainInfo`, `toBech32` for the
external `Bech32Address(...).toBech32`, `checkADR36` for the external
`checkAndValidateADR36AminoSignDoc`, `approve` for
`interactionService.waitApprove` (error = user rejection),
`serializeSignDoc` for the external canonical serializer and `signFn` for
`keyRing.sign` on the serialized bytes. -/
structure AminoEnv where
  coinType : Nat
  keyAddress : List Nat
  keyPubKey : List Nat
  bech32Pfx : String
  toBech32 : List Nat → String → String
  checkADR36 : StdSignDoc → String → Bool
  approve : Except JsError StdSignDoc
  serializeSignDoc : StdSignDoc → List Nat
  signFn : List Nat → Except JsError (List Nat)

/-- The bech32 address the service derives from the active key
(`new Bech32Address(key.address).toBech32(bech32PrefixAccAddr)`). -/
def AminoEnv.derivedAddress (env : AminoEnv) : String :=
  env.toBech32 env.keyAddress env.bech32Pfx

/-- Observable outcome of one `requestSignAmino` call: the returned value
or thrown error, the dispatched events in order, and whether
`waitApprove` was reached. -/
structure AminoOutcome where
  result : Except JsError AminoSignResponse
  events : List Event
  approveInvoked : Bool
deriving DecidableEq, Repr

/-- `KeyRingService.requestSignAmino` (service.ts lines 238-327), statement
by statement. Note that the post-approval re-validation block (lines
293-310) re-checks the ORIGINAL `signDoc`, exactly as the source does,
even though its comment and error messages speak of the new sign doc. -/
def requestSignAmino (env : AminoEnv) (signer : String) (signDoc : StdSignDoc)
    (isADR36WithString : Option Bool) : AminoOutcome :=
  if signer ≠ env.derivedAddress then
    ⟨Except.error (JsError.error "Signer mismatched"), [], false⟩
  else
    let isADR36SignDoc := env.checkADR36 signDoc env.bech32Pfx
    if isADR36SignDoc ∧ firstMsgSigner signDoc ≠ some signer then
      ⟨Except.error (JsError.owallet "keyring" 233 "Unmatched signer in sign doc"), [], false⟩
    else if isADR36WithString.isSome ∧ ¬ isADR36SignDoc then
      ⟨Except.error (JsError.owallet "keyring" 236
        "Sign doc is not for ADR-36. But, \"isADR36WithString\" option is defined"), [], false⟩
    else
      match env.approve with
      | Except.error e => ⟨Except.error e, [], true⟩
      | Except.ok newSignDoc =>
        if isADR36SignDoc ∧ ¬ env.checkADR36 signDoc env.bech32Pfx then
          ⟨Except.error (JsError.owallet "keyring" 237
            "Signing request was for ADR-36. But, accidentally, new sign doc is not for ADR-36"),
            [], true⟩
        else if isADR36SignDoc ∧ firstMsgSigner signDoc ≠ some signer then
          ⟨Except.error (JsError.owallet "keyring" 232 "Unmatched signer in new sign doc"),
            [], true⟩
        else
          match env.signFn (env.serializeSignDoc newSignDoc) with
          | Except.ok sig =>
            ⟨Except.ok ⟨newSignDoc, ⟨env.keyPubKey, sig⟩⟩, [evRequestSignEnd], true⟩
          | Except.error e => ⟨Except.error e, [evRequestSignEnd], true⟩

/-- A protobuf `SignDoc` for the direct signing mode, kept opaque: the
service only encodes it, hands the bytes to the approval step, and decodes
what comes back. -/
structure DirectSignDoc where
  bytes : List Nat
deriving DecidableEq, Repr

/-- `DirectSignResponse`: the decoded new sign doc plus the encoded
signature. -/
structure DirectSignResponse where
  signed : DirectSignDoc
  signature : EncodedSignature
deriving DecidableEq, Repr

/-- Environment of collaborator results for `requestSignDirect`:
as for `requestSignAmino`, with `approve` returning the new sign-doc
bytes, and `makeSignBytes` for the external `@cosmjs/proto-signing`
serializer applied to the decoded doc. `cosmos.tx.v1beta1.SignDoc.decode`
is modelled as wrapping the bytes back into a `DirectSignDoc`. -/
structure DirectEnv where
  coinType : Nat
  keyAddress : List Nat
  keyPubKey : List Nat
  bech32Pfx : String
  toBech32 : List Nat → String → String
  approve : Except JsError (List Nat)
  makeSignBytes : DirectSignDoc → List Nat
  signFn : List Nat → Except JsError (List Nat)

/-- The bech32 address `requestSignDirect` derives from the active key. -/
def DirectEnv.derivedAddress (env : DirectEnv) : String :=
  env.toBech32 env.keyAddress env.bech32Pfx

/-- Observable outcome of one `requestSignDirect` call. The source's
`catch (e) { console.log(...) }` around the signing step swallows signing
errors and lets the method resolve with `undefined`, which is modelled by
`Except.ok none`. -/
structure DirectOutcome where
  result : Except JsError (Option DirectSignResponse)
  events : List Event
  approveInvoked : Bool
deriving DecidableEq, Repr

/-- `KeyRingService.requestSignDirect` (service.ts lines 329-381). -/
def requestSignDirect (env : DirectEnv) (signer : String)
    (_signDoc : DirectSignDoc) : DirectOutcome :=
  if signer ≠ env.derivedAddress then
    ⟨Except.error (JsError.error "Signer mismatched"), [], false⟩
  else
    match env.approve with
    | Except.error e => ⟨Except.error e, [], true⟩
    | Except.ok newSignDocBytes =>
      let newSignDoc : DirectSignDoc := ⟨newSignDocBytes⟩
      match env.signFn (env.makeSignBytes newSignDoc) with
      | Except.ok sig =>
        ⟨Except.ok (some ⟨newSignDoc, ⟨env.keyPubKey, sig⟩⟩), [evRequestSignEnd], true⟩
      | Except.error _ =>
        ⟨Except.ok none, [evRequestSignEnd], true⟩

/-- Draft Ethereum transaction object, as far as
`estimateFeeAndWaitApprove` inspects it: the optional `gasPrice` and `gas`
fields plus the remaining fields abstracted as `payload`. -/
structure EthTxData where
  gasPrice : Option String
  gas : Option String
  payload : String
deriving DecidableEq, Repr

/-- The data object the approval step receives in
`estimateFeeAndWaitApprove`: the estimated gas price / gas limit hints
and the fee currency decimals, alongside the draft transaction. -/
structure FeeHints where
  estimatedGasPrice : String
  estimatedGasLimit : String
  decimals : Option Nat
deriving DecidableEq, Repr

/-- The approval step's response object in `estimateFeeAndWaitApprove`:
each field may be left unset by the user. -/
structure ApproveData where
  gasPrice : Option String
  gasLimit : Option String
  memo : Option String
  fees : Option String
deriving DecidableEq, Repr

/-- The merged object `{ ...data, gasPrice, gasLimit, memo, fees }`
returned by `estimateFeeAndWaitApprove`: the draft's remaining fields
survive the spread, the four merge fields override. -/
structure MergedTx where
  payload : String
  gas : Option String
  gasPrice : String
  gasLimit : Option String
  memo : String
  fees : Option String
deriving DecidableEq, Repr

/-- JavaScript `a || b` on an optional string: a missing or empty (falsy)
left operand falls through to the right operand. -/
def jsOr (a : Option String) (b : String) : String :=
  match a with
  | some s => if s = "" then b else s
  | none => b

/-- Environment of collaborator results for `estimateFeeAndWaitApprove`:
`decimals` from `getChainInfo(...).feeCurrencies?.[0].coinDecimals`,
`gasPriceRpc` / `estimateGasRpc` for the two JSON-RPC queries, and
`approve` for `waitApprove`, as a function of the hints the approval UI
is shown. -/
structure EthFeeEnv where
  decimals : Option Nat
  gasPriceRpc : Except JsError String
  estimateGasRpc : Except JsError String
  approve : FeeHints → Except JsError ApproveData

/-- Observable outcome of one `estimateFeeAndWaitApprove` call:
`approveHints` is `some h` exactly when `waitApprove` was reached, and
then records the hints it was shown. -/
structure FeeOutcome where
  result : Except JsError MergedTx
  approveHints : Option FeeHints
deriving DecidableEq, Repr

/-- `KeyRingService.estimateFeeAndWaitApprove` (service.ts lines 525-584).
`eth_gasPrice` is queried first and its failure propagates; the
`eth_estimateGas` query sits in a `try`/`catch` whose handler only logs,
leaving the initial `'0x5028'` in place. -/
def estimateFeeAndWaitApprove (env : EthFeeEnv) (data : EthTxData) : FeeOutcome :=
  match env.gasPriceRpc with
  | Except.error e => ⟨Except.error e, none⟩
  | Except.ok estimatedGasPrice =>
    let estimatedGasLimit :=
      match env.estimateGasRpc with
      | Except.ok v => v
      | Except.error _ => "0x5028"
    let hints : FeeHints :=
      ⟨jsOr data.gasPrice estimatedGasPrice, jsOr data.gas estimatedGasLimit, env.decimals⟩
    match env.approve hints with
    | Except.error e => ⟨Except.error e, some hints⟩
    | Except.ok approveData =>
      ⟨Except.ok
        ⟨data.payload, data.gas, approveData.gasPrice.getD "0x0",
          approveData.gasLimit, approveData.memo.getD "", approveData.fees⟩,
        some hints⟩

/-- Environment for `requestSignEthereum`: the fee/approval environment
plus `signAndBroadcastEthereum` on the merged data. -/
structure EthSignEnv where
  fee : EthFeeEnv
  signAndBroadcast : MergedTx → Except JsError String

/-- Observable outcome of one `requestSignEthereum` call. -/
structure EthOutcome where
  result : Except JsError String
  events : List Event
deriving DecidableEq, Repr

/-- `KeyRingService.requestSignEthereum` (service.ts lines 383-417): runs
`estimateFeeAndWaitApprove`, then signs-and-broadcasts inside a
`try`/`finally` that dispatches `request-sign-ethereum-end`. Failures of
the fee/approval stage escape before that `try` block. -/
def requestSignEthereum (env : EthSignEnv) (data : EthTxData) : EthOutcome :=
  match (estimateFeeAndWaitApprove env.fee data).result with
  | Except.error e => ⟨Except.error e, []⟩
  | Except.ok newData =>
    match env.signAndBroadcast newData with
    | Except.ok rawTxHex => ⟨Except.ok rawTxHex, [evRequestSignEthereumEnd]⟩
    | Except.error e => ⟨Except.error e, [evRequestSignEthereumEnd]⟩

/-- Environment of collaborator results for `enable`: the keyring status
at entry, the status after `keyRing.restore()` would run, the result of
the `/unlock` `waitApprove` interaction (error = rejected), and the
keyring status observed after that interaction resolves. -/
structure EnableEnv where
  status0 : KeyRingStatus
  restoredStatus : KeyRingStatus
  unlockApprove : Except JsError Unit
  statusAfterUnlock : KeyRingStatus

/-- Observable outcome of one `enable` call: the returned status or
thrown error, and whether `restore()` / the unlock `waitApprove`
interaction were invoked. -/
structure EnableOutcome where
  result : Except JsError KeyRingStatus
  restoreInvoked : Bool
  unlockInvoked : Bool
deriving DecidableEq, Repr

/-- `KeyRingService.enable` (service.ts lines 93-108). -/
def enable (env : EnableEnv) : EnableOutcome :=
  if env.status0 = KeyRingStatus.EMPTY then
    ⟨Except.error (JsError.owallet "keyring" 261 "key doesn\x27t exist"), false, false⟩
  else
    let restoreInvoked := env.status0 = KeyRingStatus.NOTLOADED
    let status1 :=
      if env.status0 = KeyRingStatus.NOTLOADED then env.restoredStatus else env.status0
    if status1 = KeyRingStatus.LOCKED then
      match env.unlockApprove with
      | Except.error e => ⟨Except.error e, decide restoreInvoked, true⟩
      | Except.ok _ => ⟨Except.ok env.statusAfterUnlock, decide restoreInvoked, true⟩
    else ⟨Except.ok status1, decide restoreInvoked, false⟩

/-- The `StdSignature` argument of `verifyADR36AminoSignDoc`: the
`pub_key.type` tag, the base64 `pub_key.value` and the base64 signature
body. -/
structure StdSignature where
  pubKeyType : String
  pubKeyValue : String
  signature : String
deriving DecidableEq, Repr

/-- Environment of collaborator results for the service method
`verifyADR36AminoSignDoc`: key material and chain info as before,
`toBase64` for `Buffer.from(bytes).toString('base64')`, `fromBase64` for
`Buffer.from(str, 'base64')`, `makeADR36AminoSignDoc` for the external
envelope builder and `cryptoVerify` for the external
`verifyADR36AminoSignDoc` from `@owallet/cosmos` (arguments: prefix,
sign doc, pub key bytes, signature bytes). -/
structure VerifyEnv where
  coinType : Nat
  keyAddress : List Nat
  keyPubKey : List Nat
  bech32Pfx : String
  toBech32 : List Nat → String → String
  toBase64 : List Nat → String
  fromBase64 : String → List Nat
  makeADR36AminoSignDoc : String → List Nat → StdSignDoc
  cryptoVerify : String → StdSignDoc → List Nat → List Nat → Bool

/-- The bech32 address `verifyADR36AminoSignDoc` derives from the active
key. -/
def VerifyEnv.derivedAddress (env : VerifyEnv) : String :=
  env.toBech32 env.keyAddress env.bech32Pfx

/-- `KeyRingService.verifyADR36AminoSignDoc` (service.ts lines 586-618):
three guard checks that THROW on mismatch, then the cryptographic
verification whose boolean is returned. -/
def verifyADR36AminoSignDoc (env : VerifyEnv) (signer : String)
    (data : List Nat) (signature : StdSignature) : Except JsError Bool :=
  if signer ≠ env.derivedAddress then
    Except.error (JsError.error "Signer mismatched")
  else if signature.pubKeyType ≠ "tendermint/PubKeySecp256k1" then
    Except.error (JsError.error ("Unsupported type of pub key: " ++ signature.pubKeyType))
  else if env.toBase64 env.keyPubKey ≠ signature.pubKeyValue then
    Except.error (JsError.error "Pub key unmatched")
  else
    let signDoc := env.makeADR36AminoSignDoc signer data
    Except.ok (env.cryptoVerify env.bech32Pfx signDoc
      (env.fromBase64 signature.pubKeyValue) (env.fromBase64 signature.signature))

/-- Modelled from the spec: the per-chain coin-type override state of the
`KeyRing` object from `./keyring`, which is not under `src/`. Spec §3
(`coinTypeOverrides`): a mapping set once per chain, "idempotent after
first set". Only the override for the one chain under discussion is
modelled. -/
structure CoinTypeState where
  override : Option Nat
deriving DecidableEq, Repr

/-- Modelled from the spec: `KeyRing.computeKeyStoreCoinType` from
`./keyring` (not under `src/`) — the stored override for the chain when
set, otherwise the chain's default coin type supplied by the Coin-Type
Resolver. -/
def computeKeyStoreCoinType (st : CoinTypeState) (chainCoinType : Nat) : Nat :=
  st.override.getD chainCoinType

/-- Modelled from the spec: `KeyRing.setKeyStoreCoinType` from `./keyring`
(not under `src/`) — sets the override the first time, idempotent (a
no-op) after the first set. -/
def keyRingSetCoinType (st : CoinTypeState) (coinType : Nat) : CoinTypeState :=
  match st.override with
  | some _ => st
  | none => ⟨some coinType⟩

/-- `KeyRingService.setKeyStoreCoinType` (service.ts lines 699-714):
computes the previous coin type, delegates the set to the keyring, and
dispatches `keystore-changed` exactly when the previous computed value
differs from the new one. Returns the new keyring state and the
dispatched events. -/
def setKeyStoreCoinType (st : CoinTypeState) (chainCoinType : Nat)
    (coinType : Nat) : CoinTypeState × List Event :=
  let prevCoinType := computeKeyStoreCoinType st chainCoinType
  let st2 := keyRingSetCoinType st coinType
  (st2, if prevCoinType ≠ coinType then [evKeystoreChanged] else [])

/-- Snapshot of `MultiKeyStoreInfoWithSelected`, kept opaque. -/
structure MultiKeyStoreInfo where
  snapshot : List Nat
deriving DecidableEq, Repr

/-- `KeyRingService.changeKeyStoreFromMultiKeyStore` (service.ts lines
666-678): the keyring call (oracle `inner`, which may throw, e.g. on an
out-of-range index) wrapped in a `try`/`finally` that dispatches
`keystore-changed` on WEBPAGE_PORT on every exit path. -/
def changeKeyStoreFromMultiKeyStore
    (inner : Except JsError MultiKeyStoreInfo) :
    Except JsError MultiKeyStoreInfo × List Event :=
  (inner, [evKeystoreChanged])

/-! ### Concrete instantiations of the collaborator oracles

Used to evaluate the embedded methods on explicit inputs. `cCheckADR36`
recognises a document as ADR-36 exactly when it consists of a single
`sign/MsgSignData` message, matching the shape the spec describes for
`checkAndValidateADR36AminoSignDoc`. -/

/-- Concrete ADR-36 classifier: one message, of the off-chain type. -/
def cCheckADR36 : StdSignDoc → String → Bool := fun d _ =>
  d.msgs.length == 1 && d.msgs.all (fun m => m.type == "sign/MsgSignData")

/-- Concrete bech32 encoder: the active key address `[1]` encodes to
`<pfx>1abc`. -/
def cToBech32 : List Nat → String → String := fun a p =>
  if a = [1] then p ++ "1abc" else p ++ "1zzz"

/-- Concrete canonical serializer. -/
def cSerialize : StdSignDoc → List Nat := fun d => d.msgs.map (fun m => m.data.length)

/-- Concrete signing oracle: always succeeds, tagging the message. -/
def cSignFn : List Nat → Except JsError (List Nat) := fun m => Except.ok (0 :: m)

/-- An ADR-36-shaped sign doc with the given embedded signer and payload. -/
def adr36Doc (s payload : String) : StdSignDoc :=
  ⟨[⟨"sign/MsgSignData", some s, payload⟩], ""⟩

/-- An ordinary on-chain transaction sign doc (not ADR-36-shaped). -/
def txDoc : StdSignDoc :=
  ⟨[⟨"cosmos-sdk/MsgSend", some "cosmos1abc", "send-all-funds"⟩], ""⟩

/-- Environment in which the approval step swaps the presented ADR-36
document for the on-chain transaction `txDoc`. -/
def c1Env : AminoEnv :=
  ⟨118, [1], [7], "cosmos", cToBech32, cCheckADR36, Except.ok txDoc, cSerialize, cSignFn⟩

/-- Environment in which the approval step returns an ADR-36-shaped
document whose embedded signer is a different address. -/
def c3Env : AminoEnv :=
  ⟨118, [1], [7], "cosmos", cToBech32, cCheckADR36,
    Except.ok (adr36Doc "cosmos1evil" "x"), cSerialize, cSignFn⟩

/-! ### Claims -/

/-- C1. The spec says: an Amino request classified as ADR-36 whose
post-approval payload is no longer ADR-36-classified must fail with
`ClassificationChanged` (error 237) and produce no signature. The code
violates this: the re-validation block at service.ts:293-310 re-runs
`checkAndValidateADR36AminoSignDoc` on the ORIGINAL `signDoc` instead of
the `newSignDoc` returned by approval (contradicting its own comment
"Validate the new sign doc" and its own error text), so swapping the
ADR-36 message for an on-chain transaction during approval is accepted
and signed. Here the original doc is ADR-36-classified, the approval
returns `txDoc` which is not, yet the call succeeds and returns a
signature over the serialization of `txDoc`. -/
theorem c1_adr36_downgrade_is_signed :
    cCheckADR36 (adr36Doc "cosmos1abc" "hello") "cosmos" = true ∧
    cCheckADR36 txDoc "cosmos" = false ∧
    c1Env.approve = Except.ok txDoc ∧
    requestSignAmino c1Env "cosmos1abc" (adr36Doc "cosmos1abc" "hello") none =
      ⟨Except.ok ⟨txDoc, ⟨[7], 0 :: cSerialize txDoc⟩⟩, [evRequestSignEnd], true⟩ := by
  refine ⟨by decide, by decide, rfl, by decide⟩

/-- C2. In both `requestSignAmino` and `requestSignDirect`, a
caller-asserted signer that differs from the bech32 address derived from
the active key fails with the signer-mismatch error, with no event
dispatched and without the approval collaborator (`waitApprove`) ever
being invoked. -/
theorem c2_signer_mismatch_before_approval
    (aenv : AminoEnv) (denv : DirectEnv) (signer : String)
    (doc : StdSignDoc) (opt : Option Bool) (ddoc : DirectSignDoc)
    (ha : signer ≠ aenv.derivedAddress) (hd : signer ≠ denv.derivedAddress) :
    requestSignAmino aenv signer doc opt =
      ⟨Except.error (JsError.error "Signer mismatched"), [], false⟩ ∧
    requestSignDirect denv signer ddoc =
      ⟨Except.error (JsError.error "Signer mismatched"), [], false⟩ := by
  constructor
  · simp [requestSignAmino, ha]
  · simp [requestSignDirect, hd]

/-- Witness for C2 at a concrete input: asserted signer `cosmos1xyz`
against derived address `cosmos1abc`. -/
theorem c2_signer_mismatch_before_approval_witness :
    requestSignAmino c1Env "cosmos1xyz" (adr36Doc "cosmos1xyz" "hello") none =
      ⟨Except.error (JsError.error "Signer mismatched"), [], false⟩ ∧
    requestSignDirect ⟨118, [1], [7], "cosmos", cToBech32, Except.ok [5], (·.bytes), cSignFn⟩
        "cosmos1xyz" ⟨[9]⟩ =
      ⟨Except.error (JsError.error "Signer mismatched"), [], false⟩ :=
  c2_signer_mismatch_before_approval _ _ _ _ _ _ (by decide) (by decide)

/-- C3. The spec says the embedded-signer check for ADR-36 documents is
applied both to the original payload (before approval) and to the payload
returned by approval. The pre-approval half holds (first conjunct: a
mismatched embedded signer fails with error 233 and approval is never
invoked). The post-approval half is violated by the code: service.ts:296
re-reads `signDoc.msgs[0].value.signer` of the ORIGINAL document instead
of the new one (while its error message speaks of the "new sign doc"), so
an approval step that returns an ADR-36 document embedding a different
signer (`cosmos1evil`) is accepted and signed (second conjunct), instead
of failing with `UnmatchedSignerInSignDoc` (error 232). -/
theorem c3_unmatched_signer_checks :
    (requestSignAmino c1Env "cosmos1abc" (adr36Doc "cosmos1xyz" "hello") none =
      ⟨Except.error (JsError.owallet "keyring" 233 "Unmatched signer in sign doc"),
        [], false⟩) ∧
    (firstMsgSigner (adr36Doc "cosmos1evil" "x") ≠ some "cosmos1abc" ∧
     cCheckADR36 (adr36Doc "cosmos1evil" "x") "cosmos" = true ∧
     requestSignAmino c3Env "cosmos1abc" (adr36Doc "cosmos1abc" "hello") none =
      ⟨Except.ok ⟨adr36Doc "cosmos1evil" "x",
          ⟨[7], 0 :: cSerialize (adr36Doc "cosmos1evil" "x")⟩⟩,
        [evRequestSignEnd], true⟩) := by
  refine ⟨by decide, by decide, by decide, by decide⟩

/-- Environment in which the approval step rejects (user cancellation). -/
def cRejectEnv : AminoEnv :=
  ⟨118, [1], [7], "cosmos", cToBech32, cCheckADR36,
    Except.error (JsError.error "Request rejected"), cSerialize, cSignFn⟩

/-- Fee/approval environment in which `eth_gasPrice` succeeds,
`eth_estimateGas` throws, and the approval step answers with only a gas
limit set. -/
def cEthFeeEnv : EthFeeEnv :=
  ⟨some 18, Except.ok "0x77", Except.error (JsError.error "estimateGas boom"),
    fun _ => Except.ok ⟨none, some "0x9", none, none⟩⟩

/-- Ethereum signing environment over `cEthFeeEnv` with a succeeding
broadcast. -/
def cEthEnv : EthSignEnv := ⟨cEthFeeEnv, fun _ => Except.ok "0xdeadbeef"⟩

/-- A draft Ethereum transaction whose `gasPrice` field is present but
empty and whose `gas` field is set. -/
def cEthData : EthTxData := ⟨some "", some "0x5208", "tx-fields"⟩

/-- C4 counterexample. The claim says every `requestSign*` call emits
exactly one completion event on EVERY exit path, including errors thrown
before or during the approval suspension. False: the `finally` block that
dispatches `request-sign-end` (service.ts:324-326) only wraps the signing
step, so a signer-mismatch exit (first conjunct) and a user-rejected
approval suspension (second conjunct) both dispatch no event at all. -/
theorem c4_pre_approval_exit_emits_no_event :
    (requestSignAmino c1Env "cosmos1bad" (adr36Doc "cosmos1bad" "hello") none).events = [] ∧
    (requestSignAmino cRejectEnv "cosmos1abc" (adr36Doc "cosmos1abc" "hello") none).events
      = [] := by
  exact ⟨by decide, by decide⟩

/-- C4 as amended: a `requestSignAmino` / `requestSignEthereum` call
dispatches at most one completion event, and exactly one on every exit
path that reaches the signing step (regardless of the signing/broadcast
outcome); exit paths that fail before the signing `try` block —
validation failures and a rejected approval suspension — dispatch no
completion event. -/
theorem c4_amended_completion_events :
    (∀ (env : AminoEnv) (signer : String) (doc : StdSignDoc) (opt : Option Bool),
      (requestSignAmino env signer doc opt).events = [] ∨
      (requestSignAmino env signer doc opt).events = [evRequestSignEnd]) ∧
    (∀ (env : AminoEnv) (signer : String) (doc : StdSignDoc) (opt : Option Bool)
        (newDoc : StdSignDoc),
      signer = env.derivedAddress →
      env.approve = Except.ok newDoc →
      (env.checkADR36 doc env.bech32Pfx = true → firstMsgSigner doc = some signer) →
      (opt.isSome = true → env.checkADR36 doc env.bech32Pfx = true) →
      (requestSignAmino env signer doc opt).events = [evRequestSignEnd]) ∧
    (∀ (env : AminoEnv) (signer : String) (doc : StdSignDoc) (opt : Option Bool)
        (e : JsError),
      env.approve = Except.error e →
      (requestSignAmino env signer doc opt).events = []) ∧
    (∀ (env : EthSignEnv) (data : EthTxData),
      (requestSignEthereum env data).events = [] ∨
      (requestSignEthereum env data).events = [evRequestSignEthereumEnd]) ∧
    (∀ (env : EthSignEnv) (data : EthTxData) (m : MergedTx),
      (estimateFeeAndWaitApprove env.fee data).result = Except.ok m →
      (requestSignEthereum env data).events = [evRequestSignEthereumEnd]) ∧
    (∀ (env : EthSignEnv) (data : EthTxData) (e : JsError),
      (estimateFeeAndWaitApprove env.fee data).result = Except.error e →
      (requestSignEthereum env data).events = []) := by
  refine ⟨?_, ?_, ?_, ?_, ?_, ?_⟩
  · intro env signer doc opt
    simp only [requestSignAmino]
    split_ifs <;> try (left; rfl)
    all_goals rcases h : env.approve with e | nd <;> simp only [h] <;> try simp
    all_goals rcases hs : env.signFn (env.serializeSignDoc nd) with e2 | s2 <;> simp [hs]
  · intro env signer doc opt newDoc hsig happ hchk hopt
    by_cases hc : env.checkADR36 doc env.bech32Pfx = true
    · have hfs := hchk hc
      simp only [requestSignAmino, hsig, happ]
      rcases hs : env.signFn (env.serializeSignDoc newDoc) with e2 | s2 <;>
        simp [hc, hfs, hs, hsig]
    · have ho : opt.isSome = false := by
        cases hoo : opt.isSome
        · rfl
        · exact absurd (hopt hoo) hc
      simp only [requestSignAmino, hsig, happ]
      rcases hs : env.signFn (env.serializeSignDoc newDoc) with e2 | s2 <;>
        simp [hc, ho, hs, hsig]
  · intro env signer doc opt e happ
    simp only [requestSignAmino]
    split_ifs <;> simp [happ]
  · intro env data
    simp only [requestSignEthereum]
    rcases h : (estimateFeeAndWaitApprove env.fee data).result with e | m
    · simp
    · rcases hs : env.signAndBroadcast m with e2 | s2 <;> simp [hs]
  · intro env data m h
    simp only [requestSignEthereum, h]
    rcases hs : env.signAndBroadcast m with e2 | s2 <;> simp [hs]
  · intro env data e h
    simp only [requestSignEthereum, h]

/-- Witness for the amended C4 at concrete inputs: an Amino request that
passes validation and approval dispatches exactly one `request-sign-end`,
and an Ethereum request whose fee/approval stage succeeds dispatches
exactly one `request-sign-ethereum-end`. -/
theorem c4_amended_completion_events_witness :
    (requestSignAmino c1Env "cosmos1abc" (adr36Doc "cosmos1abc" "hello") none).events =
      [evRequestSignEnd] ∧
    (requestSignEthereum cEthEnv cEthData).events = [evRequestSignEthereumEnd] :=
  ⟨c4_amended_completion_events.2.1 c1Env "cosmos1abc" (adr36Doc "cosmos1abc" "hello")
      none txDoc (by decide) rfl (fun _ => by decide) (fun h => by cases h),
    c4_amended_completion_events.2.2.2.2.1 cEthEnv cEthData
      ⟨"tx-fields", some "0x5208", "0x0", some "0x9", "", none⟩ (by decide)⟩

/-- The keyring status `enable` observes after its optional `restore()`
step: the restored status when the entry status was NOT_LOADED, the entry
status itself otherwise. -/
def enableEffStatus (env : EnableEnv) : KeyRingStatus :=
  if env.status0 = KeyRingStatus.NOTLOADED then env.restoredStatus else env.status0

/-- C5. `enable` as the privileged-operation gate: an EMPTY keyring fails
with the NoKeyRing error (OWalletError keyring/261) without restoring or
suspending; otherwise `restore()` runs exactly when the status was
NOT_LOADED; if the resulting status is LOCKED the unlock interaction is
suspended on and, when it resolves, the then-current status is returned
(which may still be LOCKED on user cancel — see the witness); and if the
resulting status is not LOCKED it is returned without any suspension. -/
theorem c5_enable_gate (env : EnableEnv) :
    (env.status0 = KeyRingStatus.EMPTY →
      enable env =
        ⟨Except.error (JsError.owallet "keyring" 261 "key doesn\x27t exist"),
          false, false⟩) ∧
    (env.status0 ≠ KeyRingStatus.EMPTY →
      (enable env).restoreInvoked = decide (env.status0 = KeyRingStatus.NOTLOADED) ∧
      (enableEffStatus env = KeyRingStatus.LOCKED →
        env.unlockApprove = Except.ok () →
        (enable env).unlockInvoked = true ∧
        (enable env).result = Except.ok env.statusAfterUnlock) ∧
      (enableEffStatus env ≠ KeyRingStatus.LOCKED →
        (enable env).unlockInvoked = false ∧
        (enable env).result = Except.ok (enableEffStatus env))) := by
  constructor
  · intro h
    simp [enable, h]
  · intro h
    refine ⟨?_, ?_, ?_⟩
    · simp only [enable, if_neg h]
      split_ifs <;> try rfl
      all_goals rcases env.unlockApprove with e | u <;> rfl
    · intro hl hap
      simp only [enableEffStatus] at hl
      simp only [enable, if_neg h, if_pos hl, hap]
      refine ⟨?_, ?_⟩ <;> first | rfl | trivial
    · intro hl
      simp only [enableEffStatus] at hl
      simp only [enable, if_neg h, if_neg hl, enableEffStatus]
      refine ⟨?_, ?_⟩ <;> first | rfl | trivial

/-- Witness for C5: a NOT_LOADED keyring that restores to LOCKED, whose
unlock interaction resolves while the user cancels (status still LOCKED
afterwards): `restore` runs, the unlock interaction is suspended on, and
the returned status is still LOCKED. -/
theorem c5_enable_gate_witness :
    (enable ⟨KeyRingStatus.NOTLOADED, KeyRingStatus.LOCKED, Except.ok (),
        KeyRingStatus.LOCKED⟩).restoreInvoked = true ∧
    (enable ⟨KeyRingStatus.NOTLOADED, KeyRingStatus.LOCKED, Except.ok (),
        KeyRingStatus.LOCKED⟩).unlockInvoked = true ∧
    (enable ⟨KeyRingStatus.NOTLOADED, KeyRingStatus.LOCKED, Except.ok (),
        KeyRingStatus.LOCKED⟩).result = Except.ok KeyRingStatus.LOCKED := by
  have h := (c5_enable_gate ⟨KeyRingStatus.NOTLOADED, KeyRingStatus.LOCKED,
    Except.ok (), KeyRingStatus.LOCKED⟩).2 (by decide)
  exact ⟨h.1, (h.2.1 (by decide) rfl).1, (h.2.1 (by decide) rfl).2⟩

/-- C6. A failing `eth_estimateGas` query is recovered locally: the
outcome of `estimateFeeAndWaitApprove` is exactly the outcome with the
query replaced by one returning the fixed default `'0x5028'` (so the
estimation error is never propagated), and whenever the preceding
`eth_gasPrice` query succeeds the approval suspension is still reached,
with the fallback limit (unless overridden by a truthy caller `gas`
field) in its hints. -/
theorem c6_estimate_gas_failure_recovered (env : EthFeeEnv) (data : EthTxData)
    (e : JsError) (he : env.estimateGasRpc = Except.error e) :
    estimateFeeAndWaitApprove env data =
      estimateFeeAndWaitApprove { env with estimateGasRpc := Except.ok "0x5028" } data ∧
    (∀ p, env.gasPriceRpc = Except.ok p →
      (estimateFeeAndWaitApprove env data).approveHints =
        some ⟨jsOr data.gasPrice p, jsOr data.gas "0x5028", env.decimals⟩) := by
  constructor
  · simp only [estimateFeeAndWaitApprove, he]
  · intro p hp
    simp only [estimateFeeAndWaitApprove, he, hp]
    rcases ha : env.approve ⟨jsOr data.gasPrice p, jsOr data.gas "0x5028", env.decimals⟩
      with e2 | ad <;> simp [ha]

/-- Witness for C6: in `cEthFeeEnv` the `eth_estimateGas` query throws,
yet the call equals the one with the fixed default and the approval step
is reached with hints `("0x77", "0x5208")` (the caller's `gas` wins). -/
theorem c6_estimate_gas_failure_recovered_witness :
    estimateFeeAndWaitApprove cEthFeeEnv cEthData =
      estimateFeeAndWaitApprove
        { cEthFeeEnv with estimateGasRpc := Except.ok "0x5028" } cEthData ∧
    (estimateFeeAndWaitApprove cEthFeeEnv cEthData).approveHints =
      some ⟨"0x77", "0x5208", some 18⟩ := by
  have h := c6_estimate_gas_failure_recovered cEthFeeEnv cEthData
    (JsError.error "estimateGas boom") rfl
  refine ⟨h.1, ?_⟩
  have h2 := h.2 "0x77" rfl
  simpa using h2

/-- C7 counterexample. The claim says the `estimatedGasPrice` hint equals
the caller-provided `gasPrice` field whenever it is present. False: the
merge uses JavaScript `||`, so a present-but-falsy value loses. Here
`cEthData.gasPrice` is present (the empty string) yet the hint shown to
the approval step is the RPC estimate `"0x77"`. -/
theorem c7_present_falsy_gas_price_loses :
    cEthData.gasPrice = some "" ∧
    (estimateFeeAndWaitApprove cEthFeeEnv cEthData).approveHints =
      some ⟨"0x77", "0x5208", some 18⟩ ∧ ("0x77" : String) ≠ "" := by
  exact ⟨rfl, by decide, by decide⟩

/-- C7 as amended: the `estimatedGasPrice`/`estimatedGasLimit` hints equal
the caller-provided `gasPrice`/`gas` fields whenever those are present
AND truthy (non-empty), and the RPC estimates (with the `'0x5028'`
fallback) otherwise; in the merged result returned after approval, a
`gasPrice` left unset by the approval response defaults to `'0x0'` and an
unset `memo` defaults to the empty string. -/
theorem c7_amended_fee_merge (env : EthFeeEnv) (data : EthTxData) (p gl : String)
    (hints : FeeHints)
    (hp : env.gasPriceRpc = Except.ok p)
    (hgl : gl = (match env.estimateGasRpc with
                 | Except.ok v => v
                 | Except.error _ => "0x5028"))
    (hh : hints = ⟨jsOr data.gasPrice p, jsOr data.gas gl, env.decimals⟩) :
    (estimateFeeAndWaitApprove env data).approveHints = some hints ∧
    (∀ s, data.gasPrice = some s → s ≠ "" → hints.estimatedGasPrice = s) ∧
    (∀ s, data.gas = some s → s ≠ "" → hints.estimatedGasLimit = s) ∧
    (∀ ad, env.approve hints = Except.ok ad →
      (estimateFeeAndWaitApprove env data).result =
        Except.ok ⟨data.payload, data.gas, ad.gasPrice.getD "0x0", ad.gasLimit,
          ad.memo.getD "", ad.fees⟩) := by
  subst hgl
  subst hh
  refine ⟨?_, ?_, ?_, ?_⟩
  · simp only [estimateFeeAndWaitApprove, hp]
    rcases ha : env.approve _ with e2 | ad <;> simp [ha]
  · intro s hs hne
    simp [jsOr, hs, hne]
  · intro s hs hne
    simp [jsOr, hs, hne]
  · intro ad ha
    simp only [estimateFeeAndWaitApprove, hp, ha]

/-- Witness for the amended C7: a present non-empty caller `gasPrice`
wins over the estimate, the missing `gas` falls back to the `'0x5028'`
default (the estimate query fails in `cEthFeeEnv`), and the approval
response leaving `gasPrice` and `memo` unset yields `'0x0'` and `""` in
the merged result. -/
theorem c7_amended_fee_merge_witness :
    (estimateFeeAndWaitApprove cEthFeeEnv ⟨some "0x3b9aca00", none, "w"⟩).approveHints =
      some ⟨"0x3b9aca00", "0x5028", some 18⟩ ∧
    (estimateFeeAndWaitApprove cEthFeeEnv ⟨some "0x3b9aca00", none, "w"⟩).result =
      Except.ok ⟨"w", none, "0x0", some "0x9", "", none⟩ := by
  have h := c7_amended_fee_merge cEthFeeEnv ⟨some "0x3b9aca00", none, "w"⟩ "0x77"
    "0x5028" ⟨"0x3b9aca00", "0x5028", some 18⟩ rfl (by decide) (by decide)
  exact ⟨h.1, h.2.2.2 ⟨none, some "0x9", none, none⟩ rfl⟩

/-- C8. `setKeyStoreCoinType(chainId, coinType)` dispatches no
`keystore-changed` notification when the keystore's coin type for the
chain already computes to the requested value, and dispatches exactly one
when it computes to a different value. -/
theorem c8_coin_type_notification (st : CoinTypeState) (chainCT ct : Nat) :
    (computeKeyStoreCoinType st chainCT = ct →
      (setKeyStoreCoinType st chainCT ct).2 = []) ∧
    (computeKeyStoreCoinType st chainCT ≠ ct →
      (setKeyStoreCoinType st chainCT ct).2 = [evKeystoreChanged]) := by
  constructor <;> intro h <;> simp [setKeyStoreCoinType, h]

/-- Witness for C8: with coin type 118 already set, setting 118 again
dispatches nothing and setting 60 dispatches exactly one
`keystore-changed`. -/
theorem c8_coin_type_notification_witness :
    (setKeyStoreCoinType ⟨some 118⟩ 118 118).2 = [] ∧
    (setKeyStoreCoinType ⟨some 118⟩ 118 60).2 = [evKeystoreChanged] :=
  ⟨(c8_coin_type_notification ⟨some 118⟩ 118 118).1 (by decide),
    (c8_coin_type_notification ⟨some 118⟩ 118 60).2 (by decide)⟩

/-- Concrete base64 encoder oracle: the active key `[7]` encodes to
`"263"`. -/
def cToBase64 : List Nat → String := fun l =>
  toString (l.foldl (fun a b => a * 256 + b) 1)

/-- Concrete base64 decoder oracle. -/
def cFromBase64 : String → List Nat := fun s => [s.length]

/-- Concrete ADR-36 envelope builder oracle. -/
def cMakeADR36 : String → List Nat → StdSignDoc := fun s d =>
  adr36Doc s (toString d.length)

/-- Concrete cryptographic verifier oracle. -/
def cCryptoVerify : String → StdSignDoc → List Nat → List Nat → Bool :=
  fun pfx doc pk sig => pfx == "cosmos" && doc.msgs.length == 1 && pk == sig

/-- Concrete environment for `verifyADR36AminoSignDoc`: derived address
`cosmos1abc`, active public key `[7]` whose base64 encoding is `"263"`. -/
def c9Env : VerifyEnv :=
  ⟨118, [1], [7], "cosmos", cToBech32, cToBase64, cFromBase64, cMakeADR36, cCryptoVerify⟩

/-- C9 counterexample. The claim says any mismatch in
`verifyADR36AminoSignDoc` is reported as a verification failure (boolean
false or a mismatch reason), not as an exception-worthy fault. False: the
code THROWS on the three guard checks. A mismatched signer throws
`Error('Signer mismatched')` (first conjunct) and an unrecognized
public-key encoding throws `Error('Unsupported type of pub key: ...')`
(second conjunct); neither call returns a boolean. -/
theorem c9_mismatch_throws :
    verifyADR36AminoSignDoc c9Env "cosmos1xyz" [1, 2]
        ⟨"tendermint/PubKeySecp256k1", "263", "sg"⟩ =
      Except.error (JsError.error "Signer mismatched") ∧
    verifyADR36AminoSignDoc c9Env "cosmos1abc" [1, 2] ⟨"wrong-type", "263", "sg"⟩ =
      Except.error (JsError.error "Unsupported type of pub key: wrong-type") := by
  exact ⟨by decide, by decide⟩

/-- C9 as amended: `verifyADR36AminoSignDoc` performs its checks in the
specified order — signer address against the derived bech32 address
first (throwing `Signer mismatched` regardless of the other fields), then
the fixed recognized encoding `tendermint/PubKeySecp256k1` (throwing
`Unsupported type of pub key`), then the public-key bytes against the
active key (throwing `Pub key unmatched`) — and only after all three pass
does it cryptographically verify the signature over the canonical ADR-36
envelope built from (signer, message), whose boolean verdict is the only
non-exception report; the three guard mismatches are thrown errors with
specific reasons, not boolean-false returns. -/
theorem c9_amended_verify_order (env : VerifyEnv) (signer : String)
    (data : List Nat) (sig : StdSignature) :
    (signer ≠ env.derivedAddress →
      verifyADR36AminoSignDoc env signer data sig =
        Except.error (JsError.error "Signer mismatched")) ∧
    (signer = env.derivedAddress →
      sig.pubKeyType ≠ "tendermint/PubKeySecp256k1" →
      verifyADR36AminoSignDoc env signer data sig =
        Except.error (JsError.error ("Unsupported type of pub key: " ++ sig.pubKeyType))) ∧
    (signer = env.derivedAddress →
      sig.pubKeyType = "tendermint/PubKeySecp256k1" →
      env.toBase64 env.keyPubKey ≠ sig.pubKeyValue →
      verifyADR36AminoSignDoc env signer data sig =
        Except.error (JsError.error "Pub key unmatched")) ∧
    (signer = env.derivedAddress →
      sig.pubKeyType = "tendermint/PubKeySecp256k1" →
      env.toBase64 env.keyPubKey = sig.pubKeyValue →
      verifyADR36AminoSignDoc env signer data sig =
        Except.ok (env.cryptoVerify env.bech32Pfx (env.makeADR36AminoSignDoc signer data)
          (env.fromBase64 sig.pubKeyValue) (env.fromBase64 sig.signature))) := by
  refine ⟨?_, ?_, ?_, ?_⟩
  · intro h1
    simp [verifyADR36AminoSignDoc, h1]
  · intro h1 h2
    simp [verifyADR36AminoSignDoc, h1, h2]
  · intro h1 h2 h3
    simp [verifyADR36AminoSignDoc, h1, h2, h3]
  · intro h1 h2 h3
    simp [verifyADR36AminoSignDoc, h1, h2, h3]

/-- Witness for the amended C9: with all three guards passing, the call
returns the cryptographic verifier's boolean verdict (here `false`). -/
theorem c9_amended_verify_order_witness :
    verifyADR36AminoSignDoc c9Env "cosmos1abc" [1, 2]
        ⟨"tendermint/PubKeySecp256k1", "263", "sg"⟩ = Except.ok false :=
  (c9_amended_verify_order c9Env "cosmos1abc" [1, 2]
      ⟨"tendermint/PubKeySecp256k1", "263", "sg"⟩).2.2.2 (by decide) rfl (by decide)

/-- C10. `changeKeyStoreFromMultiKeyStore` dispatches exactly one
`keystore-changed` notification to the webpage audience on every exit
path — the `finally` block fires whether the underlying keyring call
returns a snapshot or throws (e.g. an out-of-range index), and the
inner result or error is passed through unchanged. -/
theorem c10_change_keystore_always_notifies
    (inner : Except JsError MultiKeyStoreInfo) :
    changeKeyStoreFromMultiKeyStore inner = (inner, [evKeystoreChanged]) := rfl

end KeyRingSvc
